import Mathlib

/-!
Verification development for the node-po6-mmap repository.

The repository wraps the POSIX memory-mapping primitives behind a typed
convenience API.  The relevant source files are:

- src/lib/convenience-api.ts : flag translation, parameter validation,
  the mapping-handle state machine (closure over a mutable flag named mapped),
  the leak-detection registry bookkeeping, and the mmapFd orchestration built
  on an injected low-level interface;
- src/lib/low-level-impl-linux.ts : the Linux low-level interface (raw
  syscall wrappers and the page-size constant);
- src/lib/index.ts : the older monolithic implementation of the same API;
- src/lib/low-level-interface.ts : the record of low-level operations.

External collaborators (the raw syscall bridge, fstat-based descriptor
introspection) are modelled as oracle functions passed in as parameters.
TypeScript numbers and bigints that hold integral values are modelled as Int
(JavaScript remainder is Int.tmod); flag words, which are bitwise ORs of
non-negative constants, are modelled as Nat.  Thrown Error values are modelled
by Except String / Option String carrying the exact message text built by the
source.  Where a function issues a low-level map call, the embedding also
returns the list of argument records passed to the low-level map, so that
statements of the form "the low-level map is never invoked" are expressible.
-/

namespace Po6Mmap

/-- Hexadecimal rendering of a natural number with lowercase digits, as
produced by the JavaScript expression n.toString(16) for non-negative n. -/
def natToHex (n : Nat) : String := (Nat.toDigits 16 n).asString

/-- Rendering of an integral JavaScript number or bigint in base 16, as
produced by v.toString(16): a leading minus sign for negative values,
lowercase hexadecimal digits for the magnitude. -/
def jsHexString (v : Int) : String :=
  if v < 0 then "-" ++ natToHex v.natAbs else natToHex v.toNat

/-- Decides whether the first character list occurs contiguously inside the
second one.  Used to state that an error message embeds a given fragment. -/
def charsInfix : List Char → List Char → Bool
  | needle, [] => needle.isEmpty
  | needle, c :: rest => needle.isPrefixOf (c :: rest) || charsInfix needle rest

/-- Decides whether the string needle occurs contiguously inside the string
hay. -/
def containsStr (hay needle : String) : Bool := charsInfix needle.data hay.data

/-- Mapping visibility enum from src/lib/convenience-api.ts (also
src/lib/index.ts): the TypeScript union "MAP_SHARED" | "MAP_PRIVATE". -/
inductive TMemoryMappingVisibility where
  | MAP_SHARED
  | MAP_PRIVATE
deriving DecidableEq

/-- Protection flag struct from src/lib/convenience-api.ts (also
src/lib/index.ts). -/
structure TMemoryProtectionFlags where
  PROT_EXEC : Bool
  PROT_READ : Bool
  PROT_WRITE : Bool
deriving DecidableEq

/-- Advisory flag struct. The source consumes Partial of TGenericMmapFlags, so
every field may be absent (none), present false, or present true. -/
structure TGenericMmapFlags where
  MAP_32BIT : Option Bool
  MAP_LOCKED : Option Bool
  MAP_NORESERVE : Option Bool
deriving DecidableEq

/-- Argument record of the low-level map operation, from
src/lib/low-level-interface.ts.  All six syscall parameters are bigint in the
source; prot and flags are always bitwise ORs of non-negative constants and
are modelled as Nat. -/
structure TLowLevelMmapArgs where
  address : Int
  length : Int
  prot : Nat
  flags : Nat
  fd : Int
  offset : Int
deriving DecidableEq

/-- Result of the low-level map operation: either an errno (error branch of
the TypeScript discriminated union) or the mapped address. -/
abbrev TLowLevelMmapResult := Except Nat Int

/-- Argument record of the low-level unmap operation, from
src/lib/low-level-interface.ts: address is bigint, length is number. -/
structure TLowLevelMunmapArgs where
  address : Int
  length : Int
deriving DecidableEq

/-- Low-level interface record from src/lib/low-level-interface.ts.  The
determinePageSize member is a nullary function in the source. -/
structure TMmapLowLevelInterface where
  mmap : TLowLevelMmapArgs → TLowLevelMmapResult
  munmap : TLowLevelMunmapArgs → Option Nat
  determinePageSize : Unit → Int

/-- Request record of a raw syscall as issued through the syscall-napi
bridge (an external collaborator): a syscall number and its argument list. -/
structure TSyscallRequest where
  syscallNumber : Nat
  args : List Int
deriving DecidableEq

/-- Result of a raw syscall: either an errno or the return value. -/
abbrev TSyscallResult := Except Nat Int

namespace syscallNumbers

/-- Syscall number for mmap as exported by the syscall-napi package (an
external collaborator; the value shown is the Linux x86-64 one).  Both
implementations use the same exported constant, which is all the proofs
depend on. -/
def mmap : Nat := 9

/-- Syscall number for munmap as exported by the syscall-napi package. -/
def munmap : Nat := 11

end syscallNumbers

/-- Mutable state captured by the mapping-handle closures: the address and
length of the mapping, the mutable mapped flag (true initially, set to false
by a successful unmap), and whether the handle is currently registered with
the leak-detection FinalizationRegistry. -/
structure TMemoryMapping where
  address : Int
  length : Int
  mapped : Bool
  registered : Bool
deriving DecidableEq

/-- Resource descriptor captured at handle construction and reported by the
leak detector, from src/lib/convenience-api.ts (also src/lib/index.ts). -/
structure TMemoryMappedBufferInfo where
  address : Int
  length : Int
deriving DecidableEq

/-- View of raw memory as produced by the address2buffer package (an external
collaborator): a buffer of size bytes backed by the memory at address. -/
structure ArrayBufferView where
  address : Int
  size : Int
deriving DecidableEq

/-- Modelled from the spec: the address2buffer package is an external
collaborator that returns a byte buffer of exactly the requested size over
the memory at the given address. -/
def address2buffer (address : Int) (size : Int) : ArrayBufferView :=
  { address := address, size := size }

/-- Result of mmapFd: the TypeScript discriminated union with either errno
populated and no handle, or a handle populated and errno undefined. -/
inductive TMmapFdResult where
  | errnoResult (errno : Nat)
  | mappingResult (mapping : TMemoryMapping)
deriving DecidableEq

/-- Request record taken by mmapFd in both implementations. -/
structure TMmapFdRequest where
  fd : Int
  mappingVisibility : TMemoryMappingVisibility
  memoryProtectionFlags : TMemoryProtectionFlags
  genericFlags : TGenericMmapFlags
  offsetInFd : Int
  length : Int
deriving DecidableEq

namespace ConvenienceApi

/-- PROT_READ bit constant, src/lib/convenience-api.ts line 20. -/
def PROT_READ : Nat := 0x1

/-- PROT_WRITE bit constant, src/lib/convenience-api.ts line 21. -/
def PROT_WRITE : Nat := 0x2

/-- PROT_EXEC bit constant, src/lib/convenience-api.ts line 22. -/
def PROT_EXEC : Nat := 0x4

/-- Translation of the protection struct to the syscall prot value,
src/lib/convenience-api.ts lines 24-40: starts from zero and ORs in the bit
for each field that is set. -/
def memoryProtectionFlagsToSyscallValue (memoryProtectionFlags : TMemoryProtectionFlags) : Nat :=
  let p0 : Nat := 0
  let p1 := if memoryProtectionFlags.PROT_READ then p0 ||| PROT_READ else p0
  let p2 := if memoryProtectionFlags.PROT_WRITE then p1 ||| PROT_WRITE else p1
  if memoryProtectionFlags.PROT_EXEC then p2 ||| PROT_EXEC else p2

/-- MAP_PRIVATE bit constant, src/lib/convenience-api.ts line 42. -/
def MAP_PRIVATE : Nat := 0x02

/-- MAP_SHARED_VALIDATE bit constant, src/lib/convenience-api.ts line 43. -/
def MAP_SHARED_VALIDATE : Nat := 0x03

/-- Translation of the visibility enum to mmap flag bits,
src/lib/convenience-api.ts lines 45-55: MAP_PRIVATE selects the private
constant, MAP_SHARED selects the shared-validated constant. -/
def mappingVisibilityToMmapFlags (mappingVisibility : TMemoryMappingVisibility) : Nat :=
  let p0 : Nat := 0
  match mappingVisibility with
  | .MAP_PRIVATE => p0 ||| MAP_PRIVATE
  | .MAP_SHARED => p0 ||| MAP_SHARED_VALIDATE

/-- MAP_32BIT bit constant, src/lib/convenience-api.ts line 57. -/
def MAP_32BIT : Nat := 0x40

/-- MAP_LOCKED bit constant, src/lib/convenience-api.ts line 58. -/
def MAP_LOCKED : Nat := 0x2000

/-- MAP_NORESERVE bit constant, src/lib/convenience-api.ts line 59. -/
def MAP_NORESERVE : Nat := 0x4000

/-- Translation of the advisory flag set to mmap flag bits,
src/lib/convenience-api.ts lines 61-77: each field contributes its bit only
when it is present and strictly equal to true. -/
def genericFlagsToMmapFlags (genericFlags : TGenericMmapFlags) : Nat :=
  let p0 : Nat := 0
  let p1 := if genericFlags.MAP_32BIT = some true then p0 ||| MAP_32BIT else p0
  let p2 := if genericFlags.MAP_LOCKED = some true then p1 ||| MAP_LOCKED else p1
  if genericFlags.MAP_NORESERVE = some true then p2 ||| MAP_NORESERVE else p2

/-- Modelled from the spec: the file src/lib/snippets/format-pointer.ts is
not present under src/.  The spec requires the canonical pointer formatting
used elsewhere in the system, which everywhere else (samples, tests) is the
prefix 0x followed by the lowercase hexadecimal digits of the address. -/
def formatPointer (pointerAddress : Int) : String :=
  "0x" ++ jsHexString pointerAddress

/-- Message built by the MemoryMappedBufferGarbageCollectedWithoutUnmapError
constructor, src/lib/convenience-api.ts lines 97-106: embeds the formatted
address and the literal length of the captured buffer info. -/
def garbageCollectedErrorMessage (bufferInfo : TMemoryMappedBufferInfo) : String :=
  "memory mapped buffer at"
    ++ (" address " ++ formatPointer bufferInfo.address)
    ++ (" with length " ++ toString bufferInfo.length)
    ++ " was garbage collected without calling unmap()."
    ++ " This would causes a memory leak -"
    ++ " therefore this raises an uncaught exception."
    ++ " Please make sure to call unmap() on all memory mapped buffers when you are done with them."

/-- Parameter validation, src/lib/convenience-api.ts lines 151-168: returns
the thrown message, or none when both checks pass.  The page size comes from
the injected determinePageSize. -/
def assertMmapParameters (pageSize : Int) (offsetInFd : Int) (length : Int) : Option String :=
  if offsetInFd.tmod pageSize ≠ 0 then
    some ("offsetInFd must be multiple of page size " ++ toString pageSize)
  else if length ≤ 0 then
    some "length must be greater than zero"
  else
    none

/-- Descriptor validation, src/lib/convenience-api.ts lines 128-138: a
negative descriptor or a failing fstat call (modelled by the oracle
fstatFails) raises; otherwise nothing happens.  Returns the thrown message
or none. -/
def assertFdIsValid (fstatFails : Int → Bool) (fd : Int) : Option String :=
  if fd < 0 then
    some ("invalid file descriptor " ++ toString fd)
  else if fstatFails fd then
    some ("invalid file descriptor " ++ toString fd ++ ", fstat failed")
  else
    none

/-- Release operation of the mapping handle, src/lib/convenience-api.ts
lines 180-194.  Returns the state after the call together with the thrown
message, if any: when already unmapped it throws without touching the state;
when the low-level unmap reports an errno it throws with that errno embedded
and the state (including the registration) is untouched; on success the
mapped flag is cleared and the registration removed before returning. -/
def unmap (munmapOs : TLowLevelMunmapArgs → Option Nat) (s : TMemoryMapping) :
    TMemoryMapping × Option String :=
  if s.mapped = false then
    (s, some "memory mapping already unmapped")
  else
    match munmapOs { address := s.address, length := s.length } with
    | some errno => (s, some ("munmap failed with errno " ++ toString errno))
    | none => ({ s with mapped := false, registered := false }, none)

/-- Byte view accessor of the mapping handle, src/lib/convenience-api.ts
lines 204-217: throws when the handle is no longer mapped, otherwise returns
the backing buffer that address2buffer produces over address and length.
The instanceof ArrayBuffer guard of the source always passes in this model
because the modelled external library returns an ArrayBuffer view. -/
def createArrayBuffer (s : TMemoryMapping) : Except String ArrayBufferView :=
  if s.mapped = false then
    .error "memory mapping already unmapped"
  else
    .ok (address2buffer s.address s.length)

/-- Handle construction, src/lib/convenience-api.ts lines 170-225: builds the
closure state with the mapped flag set, and registers the handle with the
leak-detection FinalizationRegistry. -/
def memoryMappingFromAddress (address : Int) (length : Int) : TMemoryMapping :=
  { address := address, length := length, mapped := true, registered := true }

/-- Orchestration of the map operation, src/lib/convenience-api.ts lines
227-282: validate offset and length, translate the flag structs, validate
the descriptor, then issue exactly one low-level map call; an errno from the
low-level map is returned in the error branch of the result with no handle
constructed, a returned address yields a freshly constructed handle.  The
second component lists the argument records passed to the low-level map, in
order, so that the absence of any low-level call is observable. -/
def mmapFd (lowLevelInterface : TMmapLowLevelInterface) (fstatFails : Int → Bool)
    (req : TMmapFdRequest) :
    Except String TMmapFdResult × List TLowLevelMmapArgs :=
  match assertMmapParameters (lowLevelInterface.determinePageSize ()) req.offsetInFd req.length with
  | some msg => (.error msg, [])
  | none =>
    let addressParam : Int := 0
    let lengthParam : Int := req.length
    let protParam := memoryProtectionFlagsToSyscallValue req.memoryProtectionFlags
    let flagsParam : Nat :=
      (0 ||| mappingVisibilityToMmapFlags req.mappingVisibility)
        ||| genericFlagsToMmapFlags req.genericFlags
    match assertFdIsValid fstatFails req.fd with
    | some msg => (.error msg, [])
    | none =>
      let callArgs : TLowLevelMmapArgs :=
        { address := addressParam, length := lengthParam, prot := protParam,
          flags := flagsParam, fd := req.fd, offset := req.offsetInFd }
      match lowLevelInterface.mmap callArgs with
      | .error errno => (.ok (.errnoResult errno), [callArgs])
      | .ok mappedAddress =>
        (.ok (.mappingResult (memoryMappingFromAddress mappedAddress req.length)), [callArgs])

end ConvenienceApi

namespace LowLevelImplLinux

/-- Low-level map wrapper of the Linux interface,
src/lib/low-level-impl-linux.ts lines 5-36: issues the mmap syscall through
the bridge (the oracle sys) with the six arguments in order and reshapes the
errno-or-return union into the errno-or-address union. -/
def mmap (sys : TSyscallRequest → TSyscallResult) (args : TLowLevelMmapArgs) :
    TLowLevelMmapResult :=
  match sys { syscallNumber := syscallNumbers.mmap,
              args := [args.address, args.length, (args.prot : Int), (args.flags : Int),
                       args.fd, args.offset] } with
  | .error errno => .error errno
  | .ok ret => .ok ret

/-- Low-level unmap wrapper of the Linux interface,
src/lib/low-level-impl-linux.ts lines 38-56: issues the munmap syscall with
address and length and passes the errno through (none when absent). -/
def munmap (sys : TSyscallRequest → TSyscallResult) (args : TLowLevelMunmapArgs) :
    Option Nat :=
  match sys { syscallNumber := syscallNumbers.munmap,
              args := [args.address, args.length] } with
  | .error errno => some errno
  | .ok _ => none

/-- Page size of the Linux interface, src/lib/low-level-impl-linux.ts lines
58-62: unconditionally returns 4096. -/
def determinePageSize : Unit → Int := fun _ => 4096

/-- Construction of the Linux low-level interface record,
src/lib/low-level-impl-linux.ts lines 4-69. -/
def createLinuxLowLevelInterface (sys : TSyscallRequest → TSyscallResult) :
    TMmapLowLevelInterface :=
  { mmap := mmap sys, munmap := munmap sys, determinePageSize := determinePageSize }

end LowLevelImplLinux

namespace IndexTs

/-- Page size of the monolithic implementation, src/lib/index.ts lines
19-23: unconditionally returns 4096. -/
def determinePageSize : Unit → Int := fun _ => 4096

/-- Parameter validation, src/lib/index.ts lines 25-42: identical checks and
messages as the factored version; the page size comes from the local
determinePageSize. -/
def assertMmapParameters (offsetInFd : Int) (length : Int) : Option String :=
  let pageSize := determinePageSize ()
  if offsetInFd.tmod pageSize ≠ 0 then
    some ("offsetInFd must be multiple of page size " ++ toString pageSize)
  else if length ≤ 0 then
    some "length must be greater than zero"
  else
    none

/-- Translation of the protection struct, src/lib/index.ts lines 44-64
(textually the same as the factored version). -/
def memoryProtectionFlagsToSyscallValue (memoryProtectionFlags : TMemoryProtectionFlags) : Nat :=
  let p0 : Nat := 0
  let p1 := if memoryProtectionFlags.PROT_READ then p0 ||| 0x1 else p0
  let p2 := if memoryProtectionFlags.PROT_WRITE then p1 ||| 0x2 else p1
  if memoryProtectionFlags.PROT_EXEC then p2 ||| 0x4 else p2

/-- Translation of the visibility enum, src/lib/index.ts lines 66-79. -/
def mappingVisibilityToMmapFlags (mappingVisibility : TMemoryMappingVisibility) : Nat :=
  let p0 : Nat := 0
  match mappingVisibility with
  | .MAP_PRIVATE => p0 ||| 0x02
  | .MAP_SHARED => p0 ||| 0x03

/-- Translation of the advisory flag set, src/lib/index.ts lines 81-101. -/
def genericFlagsToMmapFlags (genericFlags : TGenericMmapFlags) : Nat :=
  let p0 : Nat := 0
  let p1 := if genericFlags.MAP_32BIT = some true then p0 ||| 0x40 else p0
  let p2 := if genericFlags.MAP_LOCKED = some true then p1 ||| 0x2000 else p1
  if genericFlags.MAP_NORESERVE = some true then p2 ||| 0x4000 else p2

/-- Syscall wrapper for mmap, src/lib/index.ts lines 111-149: same shape as
the Linux low-level interface wrapper. -/
def mmap (sys : TSyscallRequest → TSyscallResult) (args : TLowLevelMmapArgs) :
    TLowLevelMmapResult :=
  match sys { syscallNumber := syscallNumbers.mmap,
              args := [args.address, args.length, (args.prot : Int), (args.flags : Int),
                       args.fd, args.offset] } with
  | .error errno => .error errno
  | .ok ret => .ok ret

/-- Syscall wrapper for munmap, src/lib/index.ts lines 151-169. -/
def munmap (sys : TSyscallRequest → TSyscallResult) (args : TLowLevelMunmapArgs) :
    Option Nat :=
  match sys { syscallNumber := syscallNumbers.munmap,
              args := [args.address, args.length] } with
  | .error errno => some errno
  | .ok _ => none

/-- Message built by the MemoryMappedBufferGarbageCollectedWithoutUnmapError
constructor of the monolithic implementation, src/lib/index.ts lines
185-194.  Note that the text after the word address renders
bufferInfo.length in hexadecimal, not bufferInfo.address. -/
def garbageCollectedErrorMessage (bufferInfo : TMemoryMappedBufferInfo) : String :=
  "memory mapped buffer at"
    ++ (" address 0x" ++ jsHexString bufferInfo.length)
    ++ (" with length " ++ toString bufferInfo.length)
    ++ " was garbage collected without calling unmap()."
    ++ " This would causes a memory leak -"
    ++ " therefore this raises an uncaught exception."
    ++ " Please make sure to call unmap() on all memory mapped buffers when you are done with them."

/-- Release operation of the monolithic mapped buffer, src/lib/index.ts
lines 218-232: same state machine as the factored version, with the message
text of that file, calling munmap through the syscall bridge. -/
def unmap (sys : TSyscallRequest → TSyscallResult) (s : TMemoryMapping) :
    TMemoryMapping × Option String :=
  if s.mapped = false then
    (s, some "memory already unmapped")
  else
    match munmap sys { address := s.address, length := s.length } with
    | some errno => (s, some ("munmap failed with errno " ++ toString errno))
    | none => ({ s with mapped := false, registered := false }, none)

/-- Handle construction of the monolithic implementation, src/lib/index.ts
lines 207-247: the byte buffer over address and length is created eagerly
and monkey-patched with the address and the unmap closure; the closure state
starts mapped and the buffer is registered with the leak-detection
FinalizationRegistry. -/
def memoryMappedBufferFromAddress (address : Int) (length : Int) : TMemoryMapping :=
  { address := address, length := length, mapped := true, registered := true }

/-- Descriptor validation, src/lib/index.ts lines 257-267 (textually the
same as the factored version). -/
def assertFdIsValid (fstatFails : Int → Bool) (fd : Int) : Option String :=
  if fd < 0 then
    some ("invalid file descriptor " ++ toString fd)
  else if fstatFails fd then
    some ("invalid file descriptor " ++ toString fd ++ ", fstat failed")
  else
    none

/-- Orchestration of the map operation in the monolithic implementation,
src/lib/index.ts lines 269-324: validate offset and length, translate the
flag structs, validate the descriptor, then issue exactly one mmap call
through the local syscall wrapper; an errno is returned with no buffer
constructed, an address yields a freshly constructed mapped buffer.  The
second component lists the argument records passed to the local low-level
map wrapper. -/
def mmapFd (sys : TSyscallRequest → TSyscallResult) (fstatFails : Int → Bool)
    (req : TMmapFdRequest) :
    Except String TMmapFdResult × List TLowLevelMmapArgs :=
  match assertMmapParameters req.offsetInFd req.length with
  | some msg => (.error msg, [])
  | none =>
    let addressParam : Int := 0
    let lengthParam : Int := req.length
    let protParam := memoryProtectionFlagsToSyscallValue req.memoryProtectionFlags
    let flagsParam : Nat :=
      (0 ||| mappingVisibilityToMmapFlags req.mappingVisibility)
        ||| genericFlagsToMmapFlags req.genericFlags
    match assertFdIsValid fstatFails req.fd with
    | some msg => (.error msg, [])
    | none =>
      let callArgs : TLowLevelMmapArgs :=
        { address := addressParam, length := lengthParam, prot := protParam,
          flags := flagsParam, fd := req.fd, offset := req.offsetInFd }
      match mmap sys callArgs with
      | .error errno => (.ok (.errnoResult errno), [callArgs])
      | .ok mappedAddress =>
        (.ok (.mappingResult (memoryMappedBufferFromAddress mappedAddress req.length)), [callArgs])

end IndexTs

/-- Reachability of a handle state: the state produced by handle
construction is reachable, and so is the state after any release attempt
(with any outcome of the low-level unmap) on a reachable state.  The byte
view accessor does not change the state. -/
inductive ReachableMappingState : TMemoryMapping → Prop where
  | init (address length : Int) :
      ReachableMappingState (ConvenienceApi.memoryMappingFromAddress address length)
  | step (munmapOs : TLowLevelMunmapArgs → Option Nat) (s : TMemoryMapping) :
      ReachableMappingState s →
      ReachableMappingState (ConvenienceApi.unmap munmapOs s).1

/-- Sample syscall oracle that always succeeds with return value 0. -/
def sysOk : TSyscallRequest → TSyscallResult := fun _ => .ok 0

/-- Sample syscall oracle that always fails with errno 22 (EINVAL). -/
def sysFail : TSyscallRequest → TSyscallResult := fun _ => .error 22

/-- Sample descriptor introspection oracle on which fstat always succeeds. -/
def fstatOk : Int → Bool := fun _ => false

/-- Sample low-level unmap oracle that always succeeds. -/
def munmapOk : TLowLevelMunmapArgs → Option Nat := fun _ => none

/-- Sample low-level unmap oracle that always fails with errno 22. -/
def munmapFail : TLowLevelMunmapArgs → Option Nat := fun _ => some 22

/-- Sample well-formed map request: page-aligned offset, positive length,
valid descriptor. -/
def sampleRequest : TMmapFdRequest :=
  { fd := 3, mappingVisibility := .MAP_PRIVATE,
    memoryProtectionFlags := { PROT_EXEC := false, PROT_READ := true, PROT_WRITE := false },
    genericFlags := { MAP_32BIT := none, MAP_LOCKED := none, MAP_NORESERVE := none },
    offsetInFd := 4096, length := 4096 }

/-- Sample request with an offset that is not page aligned. -/
def misalignedRequest : TMmapFdRequest := { sampleRequest with offsetInFd := 100 }

/-- Sample request with an aligned offset and a non-positive length. -/
def zeroLengthRequest : TMmapFdRequest := { sampleRequest with length := 0 }

/-- Sample handle state as produced by a successful map. -/
def sampleMapping : TMemoryMapping := ConvenienceApi.memoryMappingFromAddress 65536 4096

/-- C7: the translated protection value is the bitwise OR of 0x1, 0x2, 0x4
for the fields set true; MAP_PRIVATE translates to 0x02 and MAP_SHARED to
the shared-validated pattern 0x03; the advisory-flag value is the OR of
0x40, 0x2000, 0x4000 for exactly the flags present as true, an absent flag
contributing no bit. -/
theorem flag_translation_matches_bit_values :
    (∀ p : TMemoryProtectionFlags,
        ConvenienceApi.memoryProtectionFlagsToSyscallValue p =
          (if p.PROT_READ then 0x1 else 0) ||| (if p.PROT_WRITE then 0x2 else 0)
            ||| (if p.PROT_EXEC then 0x4 else 0))
      ∧ ConvenienceApi.mappingVisibilityToMmapFlags .MAP_PRIVATE = 0x02
      ∧ ConvenienceApi.mappingVisibilityToMmapFlags .MAP_SHARED = 0x03
      ∧ (∀ g : TGenericMmapFlags,
        ConvenienceApi.genericFlagsToMmapFlags g =
          (if g.MAP_32BIT = some true then 0x40 else 0)
            ||| (if g.MAP_LOCKED = some true then 0x2000 else 0)
            ||| (if g.MAP_NORESERVE = some true then 0x4000 else 0)) := by
  refine ⟨?_, rfl, rfl, ?_⟩
  · rintro ⟨e, r, w⟩
    cases e <;> cases r <;> cases w <;> rfl
  · rintro ⟨a, b, c⟩
    by_cases ha : a = some true <;> by_cases hb : b = some true <;> by_cases hc : c = some true <;>
      simp [ConvenienceApi.genericFlagsToMmapFlags, ha, hb, hc] <;> decide

/-- C9: determinePageSize unconditionally returns the constant 4096, in the
monolithic implementation and in the Linux low-level interface. -/
theorem determinePageSize_always_4096 :
    ∀ (sys : TSyscallRequest → TSyscallResult) (u : Unit),
      IndexTs.determinePageSize u = 4096
        ∧ (LowLevelImplLinux.createLinuxLowLevelInterface sys).determinePageSize u = 4096 :=
  fun _ _ => ⟨rfl, rfl⟩

/-- C10: for every syscall oracle, descriptor oracle and request, the older
monolithic mmapFd and the factored mmapFd over the Linux low-level interface
produce the same result (same validation faults, same errno pass-through,
handles with the same address and length) and issue the same low-level map
calls with the same argument records. -/
theorem mmapFd_monolithic_matches_factored :
    ∀ (sys : TSyscallRequest → TSyscallResult) (fstatFails : Int → Bool) (req : TMmapFdRequest),
      IndexTs.mmapFd sys fstatFails req =
        ConvenienceApi.mmapFd (LowLevelImplLinux.createLinuxLowLevelInterface sys)
          fstatFails req :=
  fun _ _ _ => rfl

/-- C1: for every low-level interface, descriptor oracle and request with a
page-aligned offset, a positive length and a valid open descriptor, mmapFd
does not fault and returns exactly one of the two branches of the
discriminated result: either an errno with no handle constructed, or a
handle whose length equals the requested length. -/
theorem mmapFd_valid_request_discriminated_outcome
    (lowLevelInterface : TMmapLowLevelInterface) (fstatFails : Int → Bool)
    (req : TMmapFdRequest)
    (halign : req.offsetInFd.tmod (lowLevelInterface.determinePageSize ()) = 0)
    (hlen : 0 < req.length)
    (hfd : 0 ≤ req.fd)
    (hstat : fstatFails req.fd = false) :
    (∃ e, (ConvenienceApi.mmapFd lowLevelInterface fstatFails req).1 = .ok (.errnoResult e))
      ∨ (∃ m, (ConvenienceApi.mmapFd lowLevelInterface fstatFails req).1
            = .ok (.mappingResult m) ∧ m.length = req.length) := by
  have h1 : ConvenienceApi.assertMmapParameters (lowLevelInterface.determinePageSize ())
      req.offsetInFd req.length = none := by
    simp [ConvenienceApi.assertMmapParameters, halign, not_le.mpr hlen]
  have h2 : ConvenienceApi.assertFdIsValid fstatFails req.fd = none := by
    simp [ConvenienceApi.assertFdIsValid, not_lt.mpr hfd, hstat]
  simp only [ConvenienceApi.mmapFd, h1, h2]
  cases hm : lowLevelInterface.mmap
      { address := 0, length := req.length,
        prot := ConvenienceApi.memoryProtectionFlagsToSyscallValue req.memoryProtectionFlags,
        flags := (0 ||| ConvenienceApi.mappingVisibilityToMmapFlags req.mappingVisibility)
          ||| ConvenienceApi.genericFlagsToMmapFlags req.genericFlags,
        fd := req.fd, offset := req.offsetInFd } with
  | error e => exact Or.inl ⟨e, by simp [hm]⟩
  | ok a =>
    exact Or.inr ⟨ConvenienceApi.memoryMappingFromAddress a req.length, by simp [hm],
      rfl⟩

/-- Witness for C1 at a concrete interface and request. -/
theorem mmapFd_valid_request_discriminated_outcome_witness :
    (∃ e, (ConvenienceApi.mmapFd (LowLevelImplLinux.createLinuxLowLevelInterface sysOk)
        fstatOk sampleRequest).1 = .ok (.errnoResult e))
      ∨ (∃ m, (ConvenienceApi.mmapFd (LowLevelImplLinux.createLinuxLowLevelInterface sysOk)
            fstatOk sampleRequest).1 = .ok (.mappingResult m)
          ∧ m.length = sampleRequest.length) :=
  mmapFd_valid_request_discriminated_outcome
    (LowLevelImplLinux.createLinuxLowLevelInterface sysOk) fstatOk sampleRequest
    (by decide) (by decide) (by decide) rfl

/-- C2: a request whose offset is not a multiple of the page size faults
with the alignment message and the low-level map is never invoked (empty
call trace); a request with aligned offset and non-positive length faults
with the length message, again with no low-level map call. -/
theorem mmapFd_validation_faults_before_map
    (lowLevelInterface : TMmapLowLevelInterface) (fstatFails : Int → Bool)
    (req : TMmapFdRequest) :
    (req.offsetInFd.tmod (lowLevelInterface.determinePageSize ()) ≠ 0 →
        ConvenienceApi.mmapFd lowLevelInterface fstatFails req =
          (.error ("offsetInFd must be multiple of page size "
              ++ toString (lowLevelInterface.determinePageSize ())), []))
      ∧ (req.offsetInFd.tmod (lowLevelInterface.determinePageSize ()) = 0 → req.length ≤ 0 →
        ConvenienceApi.mmapFd lowLevelInterface fstatFails req =
          (.error "length must be greater than zero", [])) := by
  constructor
  · intro hmis
    simp [ConvenienceApi.mmapFd, ConvenienceApi.assertMmapParameters, hmis]
  · intro halign hlen
    simp [ConvenienceApi.mmapFd, ConvenienceApi.assertMmapParameters, halign, hlen]

/-- Witness for C2 at concrete misaligned and zero-length requests. -/
theorem mmapFd_validation_faults_before_map_witness :
    (ConvenienceApi.mmapFd (LowLevelImplLinux.createLinuxLowLevelInterface sysOk)
        fstatOk misalignedRequest =
      (.error ("offsetInFd must be multiple of page size "
          ++ toString ((LowLevelImplLinux.createLinuxLowLevelInterface
              sysOk).determinePageSize ())), []))
      ∧ (ConvenienceApi.mmapFd (LowLevelImplLinux.createLinuxLowLevelInterface sysOk)
          fstatOk zeroLengthRequest =
        (.error "length must be greater than zero", [])) :=
  ⟨(mmapFd_validation_faults_before_map
      (LowLevelImplLinux.createLinuxLowLevelInterface sysOk) fstatOk misalignedRequest).1
      (by decide),
   (mmapFd_validation_faults_before_map
      (LowLevelImplLinux.createLinuxLowLevelInterface sysOk) fstatOk zeroLengthRequest).2
      (by decide) (by decide)⟩

/-- C3: on a mapped handle whose low-level unmap succeeds, the first release
returns without fault and moves the state to unmapped; a second release on
the resulting handle faults with the already-released message and leaves the
state unchanged and unmapped.  Stated for both the factored handle and the
monolithic one. -/
theorem release_unmaps_exactly_once
    (munmapOs : TLowLevelMunmapArgs → Option Nat)
    (sys : TSyscallRequest → TSyscallResult)
    (s t : TMemoryMapping)
    (hs : s.mapped = true)
    (hok : munmapOs { address := s.address, length := s.length } = none)
    (ht : t.mapped = true)
    (htok : IndexTs.munmap sys { address := t.address, length := t.length } = none) :
    ((ConvenienceApi.unmap munmapOs s).2 = none
      ∧ ((ConvenienceApi.unmap munmapOs s).1).mapped = false
      ∧ (ConvenienceApi.unmap munmapOs ((ConvenienceApi.unmap munmapOs s).1)).2
          = some "memory mapping already unmapped"
      ∧ (ConvenienceApi.unmap munmapOs ((ConvenienceApi.unmap munmapOs s).1)).1
          = (ConvenienceApi.unmap munmapOs s).1)
    ∧ ((IndexTs.unmap sys t).2 = none
      ∧ ((IndexTs.unmap sys t).1).mapped = false
      ∧ (IndexTs.unmap sys ((IndexTs.unmap sys t).1)).2 = some "memory already unmapped"
      ∧ (IndexTs.unmap sys ((IndexTs.unmap sys t).1)).1 = (IndexTs.unmap sys t).1) := by
  constructor
  · simp [ConvenienceApi.unmap, hs, hok]
  · simp [IndexTs.unmap, ht, htok]

/-- Witness for C3 at a concrete handle and oracles. -/
theorem release_unmaps_exactly_once_witness :
    ((ConvenienceApi.unmap munmapOk sampleMapping).2 = none
      ∧ ((ConvenienceApi.unmap munmapOk sampleMapping).1).mapped = false
      ∧ (ConvenienceApi.unmap munmapOk ((ConvenienceApi.unmap munmapOk sampleMapping).1)).2
          = some "memory mapping already unmapped"
      ∧ (ConvenienceApi.unmap munmapOk ((ConvenienceApi.unmap munmapOk sampleMapping).1)).1
          = (ConvenienceApi.unmap munmapOk sampleMapping).1)
    ∧ ((IndexTs.unmap sysOk sampleMapping).2 = none
      ∧ ((IndexTs.unmap sysOk sampleMapping).1).mapped = false
      ∧ (IndexTs.unmap sysOk ((IndexTs.unmap sysOk sampleMapping).1)).2
          = some "memory already unmapped"
      ∧ (IndexTs.unmap sysOk ((IndexTs.unmap sysOk sampleMapping).1)).1
          = (IndexTs.unmap sysOk sampleMapping).1) :=
  release_unmaps_exactly_once munmapOk sysOk sampleMapping sampleMapping
    rfl rfl rfl rfl

/-- Helper: the unmap-failure message can never coincide with the
already-released message, whatever the errno renders to. -/
theorem munmapFailureMessage_ne_alreadyUnmapped (e : Nat) :
    "munmap failed with errno " ++ toString e ≠ "memory mapping already unmapped" := by
  intro h
  have h2 := congrArg String.data h
  simp [String.data, String.append] at h2

/-- C4: on a mapped handle whose low-level unmap reports an errno, release
faults with a message embedding that errno, the state is left exactly as it
was (still mapped, leak-detector registration untouched), and the fault is
distinguishable from the already-released fault because the two messages can
never coincide. -/
theorem release_failure_keeps_state_and_registration
    (munmapOs : TLowLevelMunmapArgs → Option Nat) (s : TMemoryMapping) (e : Nat)
    (hs : s.mapped = true)
    (herr : munmapOs { address := s.address, length := s.length } = some e) :
    (ConvenienceApi.unmap munmapOs s).2 = some ("munmap failed with errno " ++ toString e)
      ∧ (ConvenienceApi.unmap munmapOs s).1 = s
      ∧ ((ConvenienceApi.unmap munmapOs s).1).mapped = true
      ∧ ((ConvenienceApi.unmap munmapOs s).1).registered = s.registered
      ∧ some ("munmap failed with errno " ++ toString e)
          ≠ some "memory mapping already unmapped" := by
  refine ⟨?_, ?_, ?_, ?_, ?_⟩
  · simp [ConvenienceApi.unmap, hs, herr]
  · simp [ConvenienceApi.unmap, hs, herr]
  · simp [ConvenienceApi.unmap, hs, herr]
  · simp [ConvenienceApi.unmap, hs, herr]
  · simpa using munmapFailureMessage_ne_alreadyUnmapped e

/-- Witness for C4 at a concrete mapped handle and a failing unmap oracle. -/
theorem release_failure_keeps_state_and_registration_witness :
    (ConvenienceApi.unmap munmapFail sampleMapping).2
        = some ("munmap failed with errno " ++ toString (22 : Nat))
      ∧ (ConvenienceApi.unmap munmapFail sampleMapping).1 = sampleMapping
      ∧ ((ConvenienceApi.unmap munmapFail sampleMapping).1).mapped = true
      ∧ ((ConvenienceApi.unmap munmapFail sampleMapping).1).registered
          = sampleMapping.registered
      ∧ some ("munmap failed with errno " ++ toString (22 : Nat))
          ≠ some "memory mapping already unmapped" :=
  release_failure_keeps_state_and_registration munmapFail sampleMapping 22 rfl rfl

/-- C5: while a handle is mapped, the byte view accessor returns a view of
exactly the handle length; after a successful release the accessor faults
with the invalidated-view message. -/
theorem byte_view_guarded_by_mapped_state
    (munmapOs : TLowLevelMunmapArgs → Option Nat) (s : TMemoryMapping)
    (hs : s.mapped = true)
    (hok : munmapOs { address := s.address, length := s.length } = none) :
    (∃ v, ConvenienceApi.createArrayBuffer s = .ok v ∧ v.size = s.length)
      ∧ ConvenienceApi.createArrayBuffer ((ConvenienceApi.unmap munmapOs s).1)
          = .error "memory mapping already unmapped" := by
  constructor
  · exact ⟨address2buffer s.address s.length, by simp [ConvenienceApi.createArrayBuffer, hs],
      rfl⟩
  · simp [ConvenienceApi.createArrayBuffer, ConvenienceApi.unmap, hs, hok]

/-- Witness for C5 at a concrete handle. -/
theorem byte_view_guarded_by_mapped_state_witness :
    (∃ v, ConvenienceApi.createArrayBuffer sampleMapping = .ok v
        ∧ v.size = sampleMapping.length)
      ∧ ConvenienceApi.createArrayBuffer ((ConvenienceApi.unmap munmapOk sampleMapping).1)
          = .error "memory mapping already unmapped" :=
  byte_view_guarded_by_mapped_state munmapOk sampleMapping rfl rfl

/-- C8: a release that returns without fault leaves the handle deregistered
from the leak detector, and in every reachable handle state an unmapped
handle is never still registered. -/
theorem successful_release_deregisters
    : (∀ (munmapOs : TLowLevelMunmapArgs → Option Nat) (s : TMemoryMapping),
        (ConvenienceApi.unmap munmapOs s).2 = none →
          ((ConvenienceApi.unmap munmapOs s).1).registered = false)
      ∧ (∀ s : TMemoryMapping, ReachableMappingState s →
          s.mapped = false → s.registered = false) := by
  have hstep : ∀ (munmapOs : TLowLevelMunmapArgs → Option Nat) (s : TMemoryMapping),
      (ConvenienceApi.unmap munmapOs s).2 = none →
        ((ConvenienceApi.unmap munmapOs s).1).registered = false := by
    intro munmapOs s hnone
    by_cases hs : s.mapped = false
    · simp [ConvenienceApi.unmap, hs] at hnone
    · cases hm : munmapOs { address := s.address, length := s.length } with
      | some e => simp [ConvenienceApi.unmap, hs, hm] at hnone
      | none => simp [ConvenienceApi.unmap, hs, hm]
  refine ⟨hstep, ?_⟩
  intro s hreach
  induction hreach with
  | init address length =>
    intro hm
    simp [ConvenienceApi.memoryMappingFromAddress] at hm
  | step munmapOs s hr ih =>
    intro hm
    by_cases hs : s.mapped = false
    · simpa [ConvenienceApi.unmap, hs] using ih hs
    · cases hcall : munmapOs { address := s.address, length := s.length } with
      | some e =>
        rw [show (ConvenienceApi.unmap munmapOs s).1 = s by
          simp [ConvenienceApi.unmap, hs, hcall]] at hm ⊢
        exact ih hm
      | none => simp [ConvenienceApi.unmap, hs, hcall]

/-- Witness for C8 at a concrete released handle and a concrete reachable
unmapped state. -/
theorem successful_release_deregisters_witness :
    ((ConvenienceApi.unmap munmapOk sampleMapping).1).registered = false
      ∧ ((ConvenienceApi.unmap munmapOk sampleMapping).1).registered = false :=
  ⟨successful_release_deregisters.1 munmapOk sampleMapping rfl,
   successful_release_deregisters.2 ((ConvenienceApi.unmap munmapOk sampleMapping).1)
     (ReachableMappingState.step munmapOk sampleMapping
       (by simpa [sampleMapping] using ReachableMappingState.init 65536 4096))
     rfl⟩

/-- C6: evidence at a concrete resource descriptor (address 4096, length
8192) that the monolithic leak-fault message renders the length, not the
address, after the word address: the canonical formatting of the address,
0x1000, does not occur in the monolithic message, which instead shows
address 0x2000; the factored message embeds the formatted address and the
literal length as the claim states. -/
theorem leak_message_address_formatting_evidence :
    ConvenienceApi.formatPointer 4096 = "0x1000"
      ∧ containsStr
          (IndexTs.garbageCollectedErrorMessage { address := 4096, length := 8192 })
          "0x1000" = false
      ∧ containsStr
          (IndexTs.garbageCollectedErrorMessage { address := 4096, length := 8192 })
          "address 0x2000" = true
      ∧ containsStr
          (ConvenienceApi.garbageCollectedErrorMessage { address := 4096, length := 8192 })
          "address 0x1000" = true
      ∧ containsStr
          (ConvenienceApi.garbageCollectedErrorMessage { address := 4096, length := 8192 })
          "with length 8192" = true := by
  set_option maxRecDepth 4000 in
  refine ⟨rfl, ?_, ?_, ?_, ?_⟩ <;> decide

end Po6Mmap
